import Mathlib

/-!
# Verification of the MiniGit object store (src/minigit_project.cpp)

A shallow embedding of the C++ program `minigit_project.cpp`.  The program is
single-threaded and interacts only with the filesystem, so we model the
filesystem explicitly as a state value:

* `FSState.dirs`  — the paths that currently exist as directories;
* `FSState.files` — an association list from paths to file contents;
* `FSState.createFail` — paths at which `std::filesystem::create_directory`
  fails for environmental reasons (permissions, hardware, ...) even though the
  path does not exist yet;
* `FSState.openFail` — paths at which opening an `std::ofstream` fails for
  environmental reasons even though the parent directory exists.

`std::ofstream` opening additionally requires the parent directory to exist
and the path itself not to be a directory; `std::ifstream` opening succeeds
exactly when the path holds a regular file.  Opening an `std::ofstream`
truncates the file (default `ios::out` mode), which the model performs by
replacing the stored content outright.

`std::hash<std::string>` is implementation defined; the embedding therefore
takes the hasher as an explicit parameter `hasher : String → Nat`, truncated
to `size_t` range (`% 2^64`) wherever the program stores its result, and the
wall-clock second (`std::chrono` seconds since epoch) as a parameter
`timestamp : Nat`.
-/

namespace MiniGit

/-- Membership-style lookup in an association list of paths, mirroring how the
model reads a file's content. -/
def lookupF : List (String × String) → String → Option String
  | [], _ => none
  | (k, v) :: rest, p => if p = k then some v else lookupF rest p

/-- Drop every entry at path `p`. -/
def removeFile : List (String × String) → String → List (String × String)
  | [], _ => []
  | e :: fs, p => if e.1 = p then removeFile fs p else e :: removeFile fs p

/-- Insert-or-replace: writing a file replaces any previous entry at the same
path (last-writer-wins, as a real filesystem does). -/
def setFile (fs : List (String × String)) (p v : String) : List (String × String) :=
  (p, v) :: removeFile fs p

/-- The filesystem state together with the environmental failure oracles. -/
structure FSState where
  dirs : List String
  files : List (String × String)
  createFail : List String
  openFail : List String
deriving DecidableEq, Repr

/-- `std::filesystem::exists`: true for directories and regular files alike. -/
def existsPathB (s : FSState) (p : String) : Bool :=
  s.dirs.contains p || (lookupF s.files p).isSome

/-- `std::filesystem::is_directory`. -/
def isDirB (s : FSState) (p : String) : Bool :=
  s.dirs.contains p

/-- Parent directory of a path string: the characters before the last `/`
(empty result = the current working directory). -/
def parentOfL (cs : List Char) : List Char :=
  (((cs.reverse.dropWhile (fun c => c ≠ '/')).drop 1)).reverse

/-- Parent directory of a path. -/
def parentOf (p : String) : String :=
  String.mk (parentOfL p.data)

/-- Whether `std::ofstream(p)` opens successfully: the parent directory must
exist (the working directory always does), `p` must not itself be a
directory, and the environment must not forbid it. -/
def canOpenWrite (s : FSState) (p : String) : Bool :=
  (parentOf p = "" || isDirB s (parentOf p)) && !isDirB s p && !s.openFail.contains p

/-- Add a directory to the state (`create_directory` succeeding). -/
def addDir (s : FSState) (p : String) : FSState :=
  { s with dirs := p :: s.dirs }

/-- Overwrite (or create) the file at `p` with content `v`. -/
def setFileS (s : FSState) (p : String) (v : String) : FSState :=
  { s with files := setFile s.files p v }

/-! ## The hash: `generate_simple_hash` (lines 15–28)

```cpp
auto timestamp = ...seconds since epoch...;
std::hash<std::string> hasher;
std::string data_to_hash = content + std::to_string(timestamp)
                         + std::to_string(hasher(content));
size_t content_hash = hasher(data_to_hash);
std::stringstream ss;
ss << std::hex << std::setw(32) << std::setfill('0') << content_hash;
return ss.str();
```
-/

/-- Lowercase hexadecimal digit character, as `std::hex` prints (0–9, a–f). -/
def hexDigitChar (d : Nat) : Char :=
  if d < 10 then Char.ofNat (48 + d) else Char.ofNat (87 + d)

/-- Hexadecimal digits of `n`, most significant first, computed with explicit
fuel so the definition is structural.  For `n < 16 ^ fuel` this is exactly the
digit string `std::hex` produces (`[]` for `n = 0`, which padding then turns
into the same all-zero string the C++ code prints). -/
def hexDigitsAux : Nat → Nat → List Char
  | 0, _ => []
  | _, 0 => []
  | fuel + 1, n => hexDigitsAux fuel (n / 16) ++ [hexDigitChar (n % 16)]

/-- `ss << std::hex << std::setw(32) << std::setfill('0') << content_hash` for
a `size_t` value: the hex digits, left-padded with `'0'` to width 32. -/
def hexPad32 (n : Nat) : String :=
  let ds := hexDigitsAux 32 n
  String.mk (List.replicate (32 - ds.length) '0' ++ ds)

/-- `generate_simple_hash` (source lines 15–28).  `hasher` models the
implementation-defined `std::hash<std::string>`; its values are truncated to
`size_t` range where the program observes them. -/
def generate_simple_hash (hasher : String → Nat) (timestamp : Nat)
    (content : String) : String :=
  let data_to_hash : String :=
    content ++ toString timestamp ++ toString (hasher content % 2 ^ 64)
  let content_hash : Nat := hasher data_to_hash % 2 ^ 64
  hexPad32 content_hash

/-! ## Blob paths -/

/-- The hard-coded repository directory name (`minigit_dir_name_`). -/
def rootDir : String := ".minigit"

/-- `objects` directory path. -/
def objectsPath : String := ".minigit/objects"

/-- Path of the object file for a given digest. -/
def blobPath (hash : String) : String := ".minigit/objects/" ++ hash

/-! ## `save_blob` (lines 111–125)

```cpp
std::string hash = generate_simple_hash(file_content);
std::string blob_path = minigit_dir_name_ + "/objects/" + hash;
std::ofstream outfile(blob_path);
if (outfile.is_open()) { outfile << file_content; outfile.close(); return hash; }
else { std::cerr << "Error: Could not save blob to " << blob_path << std::endl;
       return ""; }
```
-/

/-- Result of `save_blob`: the new filesystem state, the returned string, and
the lines printed to `stderr`. -/
structure SaveResult where
  state : FSState
  ret : String
  errs : List String
deriving DecidableEq, Repr

/-- `MiniGit::save_blob` (source lines 111–125). -/
def save_blob (hasher : String → Nat) (timestamp : Nat) (s : FSState)
    (file_content : String) : SaveResult :=
  let hash := generate_simple_hash hasher timestamp file_content
  let blob_path := blobPath hash
  if canOpenWrite s blob_path then
    { state := setFileS s blob_path file_content, ret := hash, errs := [] }
  else
    { state := s, ret := ""
      errs := ["Error: Could not save blob to " ++ blob_path] }

/-! ## `read_blob` (lines 129–149)

```cpp
std::ifstream infile(blob_path);
std::string content;
if (infile.is_open()) {
    std::string line;
    while (std::getline(infile, line)) { content += line + "\n"; }
    if (!content.empty()) { content.pop_back(); }
    return content;
} else { std::cerr << "Error: Could not read blob from " << blob_path << ...;
         return ""; }
```

`std::getline` reads characters up to the next `'\n'` (consuming it) and
fails only when it reaches end-of-file having extracted nothing.  Hence the
loop produces the segments of the file between newlines; when the file ends
with `'\n'` (or is empty) the final empty segment is never produced, because
the last `getline` hits EOF with nothing read and fails.
-/

/-- Split a character list at every `'\n'`; always returns a non-empty list
of segments (the denotation of repeated `std::getline`, before accounting for
the failing final call). -/
def splitNl : List Char → List (List Char)
  | [] => [[]]
  | c :: cs =>
    if c = '\n' then [] :: splitNl cs
    else
      match splitNl cs with
      | [] => [[c]]
      | l :: ls => (c :: l) :: ls

/-- The list of lines the `while (std::getline...)` loop reads from a file
holding `cs`: the `'\n'`-separated segments, except that the final empty
segment is dropped when the content is empty or ends with `'\n'` (the last
`getline` fails at EOF with nothing extracted). -/
def cppGetlines (cs : List Char) : List (List Char) :=
  if cs = [] then []
  else if cs.getLast? = some '\n' then (splitNl cs).dropLast
  else splitNl cs

/-- The `content` the read loop reconstructs: every line re-suffixed with
`'\n'`, then `pop_back` of the final character when non-empty
(`List.dropLast` is the identity on `[]`, matching the emptiness guard). -/
def reconstruct (ls : List (List Char)) : List Char :=
  ((ls.map (fun l => l ++ ['\n'])).flatten).dropLast

/-- The full line-oriented read of a file holding `data`. -/
def readAll (data : String) : String :=
  String.mk (reconstruct (cppGetlines data.data))

/-- Result of `read_blob`: the returned string and the `stderr` lines
(`read_blob` never modifies the filesystem). -/
structure ReadResult where
  content : String
  errs : List String
deriving DecidableEq, Repr

/-- `MiniGit::read_blob` (source lines 129–149). -/
def read_blob (s : FSState) (hash : String) : ReadResult :=
  match lookupF s.files (blobPath hash) with
  | some data => { content := readAll data, errs := [] }
  | none =>
    { content := ""
      errs := ["Error: Could not read blob from " ++ blobPath hash] }

/-! ## `init` (lines 36–107)

The method is a straight line of steps, each guarded by an `if`, and any
failed `create_directory` prints an error and does `return;` immediately.  A
failed `HEAD` or branch-file open prints an error but the method continues.
The embedding splits the line into one definition per step so the control
flow can be followed against the source. -/

/-- `refs` directory path. -/
def refsPath : String := ".minigit/refs"

/-- `refs/heads` directory path. -/
def headsPath : String := ".minigit/refs/heads"

/-- `HEAD` file path. -/
def headPath : String := ".minigit/HEAD"

/-- `refs/heads/main` file path. -/
def mainPath : String := ".minigit/refs/heads/main"

/-- The content `head_file << "ref: refs/heads/main" << std::endl` writes. -/
def headContent : String := "ref: refs/heads/main\n"

/-- The per-path `create_directory` failure message (source lines 47, 57, 67,
77). -/
def errDir (p : String) : String := "Error: Could not create directory " ++ p

/-- The `HEAD` open-failure message (source line 92). -/
def errHead : String := "Error: Could not create HEAD file."

/-- The branch-file open-failure message (source line 102). -/
def errMain : String := "Error: Could not create main branch file."

/-- Result of `init`: the final state, the `stderr` lines, whether the method
returned early on a directory-creation failure, and whether the `HEAD` and
branch-file writes succeeded. -/
structure InitResult where
  state : FSState
  errs : List String
  earlyReturn : Bool
  headOk : Bool
  mainOk : Bool
deriving DecidableEq, Repr

/-- The result of an early `return;` after a directory-creation failure. -/
def mkAbort (s : FSState) (msg : String) : InitResult :=
  { state := s, errs := [msg], earlyReturn := true, headOk := false
    mainOk := false }

/-- Last step (source lines 96–103): open `refs/heads/main` with an
`std::ofstream` — which truncates it to empty — and close it; on open failure
report the error and continue. -/
def stepMain (s : FSState) (errs : List String) (headOk : Bool) : InitResult :=
  if canOpenWrite s mainPath then
    { state := setFileS s mainPath "", errs := errs, earlyReturn := false
      headOk := headOk, mainOk := true }
  else
    { state := s, errs := errs ++ [errMain], earlyReturn := false
      headOk := headOk, mainOk := false }

/-- `HEAD` step (source lines 85–93): open `HEAD` (truncating) and write
`"ref: refs/heads/main\n"`; on open failure report the error and continue. -/
def stepHead (s : FSState) : InitResult :=
  if canOpenWrite s headPath then
    stepMain (setFileS s headPath headContent) [] true
  else
    stepMain s [errHead] false

/-- `refs/heads` step (source lines 74–81): create the directory if absent;
on creation failure report and `return;`. -/
def stepHeads (s : FSState) : InitResult :=
  if existsPathB s headsPath then stepHead s
  else if s.createFail.contains headsPath then mkAbort s (errDir headsPath)
  else stepHead (addDir s headsPath)

/-- `refs` step (source lines 64–71). -/
def stepRefs (s : FSState) : InitResult :=
  if existsPathB s refsPath then stepHeads s
  else if s.createFail.contains refsPath then mkAbort s (errDir refsPath)
  else stepHeads (addDir s refsPath)

/-- `objects` step (source lines 54–61). -/
def stepObjects (s : FSState) : InitResult :=
  if existsPathB s objectsPath then stepRefs s
  else if s.createFail.contains objectsPath then mkAbort s (errDir objectsPath)
  else stepRefs (addDir s objectsPath)

/-- `MiniGit::init` (source lines 36–107).  Root step: if `.minigit` exists
as a directory, proceed (re-init); otherwise `create_directory(".minigit")`,
which fails when the path already exists as a non-directory or the
environment forbids creation, in which case the method reports and returns
early. -/
def init (s : FSState) : InitResult :=
  if existsPathB s rootDir && isDirB s rootDir then stepObjects s
  else if existsPathB s rootDir || s.createFail.contains rootDir then
    mkAbort s (errDir rootDir)
  else stepObjects (addDir s rootDir)

/-! ## Association-list lemmas -/

theorem lookupF_setFile_self (fs : List (String × String)) (p v : String) :
    lookupF (setFile fs p v) p = some v := by
  simp [lookupF, setFile]

theorem lookupF_removeFile_ne (fs : List (String × String)) (p q : String)
    (h : p ≠ q) :
    lookupF (removeFile fs q) p = lookupF fs p := by
  induction fs with
  | nil => rfl
  | cons e fs ih =>
    by_cases he : e.1 = q
    · have hpe : ¬p = e.1 := fun hh => h (hh.trans he)
      simp [removeFile, lookupF, he, hpe, ih, h]
    · by_cases hpe : p = e.1 <;> simp [removeFile, lookupF, he, hpe, ih]

theorem lookupF_setFile_ne (fs : List (String × String)) (p q v : String)
    (h : p ≠ q) :
    lookupF (setFile fs q v) p = lookupF fs p := by
  simp [setFile, lookupF, h, lookupF_removeFile_ne fs p q h]

/-! ## Round-trip lemmas for the line-oriented read -/

theorem splitNl_ne_nil (cs : List Char) : splitNl cs ≠ [] := by
  cases cs with
  | nil => simp [splitNl]
  | cons c cs =>
    by_cases h : c = '\n'
    · simp [splitNl, h]
    · simp only [splitNl, if_neg h]
      cases splitNl cs <;> simp

theorem splitNl_cons_nl (cs : List Char) :
    splitNl ('\n' :: cs) = [] :: splitNl cs := by
  simp [splitNl]

theorem splitNl_cons_ne {c : Char} (hc : ¬c = '\n') (cs : List Char)
    {l : List Char} {ls : List (List Char)} (h : splitNl cs = l :: ls) :
    splitNl (c :: cs) = (c :: l) :: ls := by
  unfold splitNl
  rw [if_neg hc, h]

theorem flatten_splitNl (cs : List Char) (hne : cs ≠ [])
    (hnl : cs.getLast? ≠ some '\n') :
    ((splitNl cs).map (fun l => l ++ ['\n'])).flatten = cs ++ ['\n'] := by
  induction cs with
  | nil => exact absurd rfl hne
  | cons c cs ih =>
    cases cs with
    | nil =>
      have hc : c ≠ '\n' := by
        intro h; exact hnl (by simp [h])
      simp [splitNl, hc]
    | cons c2 cs' =>
      have hlast : (c2 :: cs').getLast? ≠ some '\n' := by
        intro h
        exact hnl (by rw [List.getLast?_cons_cons]; exact h)
      have ih' := ih (by simp) hlast
      by_cases hc : c = '\n'
      · subst hc
        rw [splitNl_cons_nl]
        simp only [List.map_cons, List.flatten_cons, List.nil_append, ih']
        simp
      · obtain ⟨l, ls, hsplit⟩ :
          ∃ l ls, splitNl (c2 :: cs') = l :: ls := by
          cases h : splitNl (c2 :: cs') with
          | nil => exact absurd h (splitNl_ne_nil _)
          | cons l ls => exact ⟨l, ls, rfl⟩
        rw [splitNl_cons_ne hc _ hsplit]
        have key : ((l :: ls).map (fun x => x ++ ['\n'])).flatten
            = c2 :: cs' ++ ['\n'] := by
          rw [← hsplit]; exact ih'
        calc (((c :: l) :: ls).map (fun x => x ++ ['\n'])).flatten
            = c :: ((l :: ls).map (fun x => x ++ ['\n'])).flatten := by simp
          _ = c :: (c2 :: cs' ++ ['\n']) := by rw [key]
          _ = c :: c2 :: cs' ++ ['\n'] := by simp

theorem reconstruct_cppGetlines (cs : List Char)
    (hnl : cs.getLast? ≠ some '\n') :
    reconstruct (cppGetlines cs) = cs := by
  cases hcs : cs with
  | nil => rfl
  | cons c cs' =>
    rw [← hcs]
    have hne : cs ≠ [] := by rw [hcs]; simp
    unfold cppGetlines
    rw [if_neg hne, if_neg hnl]
    unfold reconstruct
    rw [flatten_splitNl cs hne hnl, List.dropLast_concat]

/-- The read loop is the identity on content without a trailing newline. -/
theorem readAll_no_trailing_newline (c : String)
    (hnl : c.data.getLast? ≠ some '\n') : readAll c = c := by
  unfold readAll
  rw [reconstruct_cppGetlines c.data hnl]

/-- **C1.** For every content string `c` not ending in a newline, if
`save_blob c` succeeds (returns a non-empty digest `d`), then `read_blob d`
on the resulting state returns exactly `c`. -/
theorem C1_write_read_roundtrip (hasher : String → Nat) (t : Nat)
    (s : FSState) (c : String) (hnl : c.data.getLast? ≠ some '\n')
    (hok : (save_blob hasher t s c).ret ≠ "") :
    (read_blob (save_blob hasher t s c).state
      (save_blob hasher t s c).ret).content = c := by
  unfold save_blob at *
  by_cases hw : canOpenWrite s (blobPath (generate_simple_hash hasher t c))
  · simp only [if_pos hw] at *
    unfold read_blob
    simp only [setFileS, lookupF_setFile_self]
    exact readAll_no_trailing_newline c hnl
  · simp [if_neg hw] at hok

/-- Witness for C1 at the spec's concrete content `"Hello, MiniGit!"`. -/
theorem C1_write_read_roundtrip_witness :
    ("Hello, MiniGit!".data.getLast? ≠ some '\n'
      ∧ (save_blob (fun u => u.length * 777) 5
          ⟨[".minigit", ".minigit/objects"], [], [], []⟩
          "Hello, MiniGit!").ret ≠ "")
    ∧ (read_blob (save_blob (fun u => u.length * 777) 5
          ⟨[".minigit", ".minigit/objects"], [], [], []⟩
          "Hello, MiniGit!").state
        (save_blob (fun u => u.length * 777) 5
          ⟨[".minigit", ".minigit/objects"], [], [], []⟩
          "Hello, MiniGit!").ret).content = "Hello, MiniGit!" :=
  ⟨⟨by decide, by decide⟩,
    C1_write_read_roundtrip (fun u => u.length * 777) 5
      ⟨[".minigit", ".minigit/objects"], [], [], []⟩
      "Hello, MiniGit!" (by decide) (by decide)⟩

/-! ## Digest format (C4) -/

/-- A lowercase hexadecimal digit character: in the range `'0'`–`'9'` or
`'a'`–`'f'`. -/
def isHexLower (c : Char) : Prop :=
  ('0' ≤ c ∧ c ≤ '9') ∨ ('a' ≤ c ∧ c ≤ 'f')

instance (c : Char) : Decidable (isHexLower c) := by
  unfold isHexLower; infer_instance

theorem isHexLower_hexDigitChar (d : Nat) (hd : d < 16) :
    isHexLower (hexDigitChar d) := by
  interval_cases d <;> decide

theorem hexDigitsAux_length (fuel n : Nat) :
    (hexDigitsAux fuel n).length ≤ fuel := by
  induction fuel generalizing n with
  | zero => simp [hexDigitsAux]
  | succ fuel ih =>
    cases n with
    | zero => simp [hexDigitsAux]
    | succ n =>
      simp only [hexDigitsAux, List.length_append, List.length_cons,
        List.length_nil]
      have := ih ((n + 1) / 16)
      omega

theorem hexDigitsAux_mem (fuel n : Nat) (c : Char)
    (hc : c ∈ hexDigitsAux fuel n) : isHexLower c := by
  induction fuel generalizing n with
  | zero => simp [hexDigitsAux] at hc
  | succ fuel ih =>
    cases n with
    | zero => simp [hexDigitsAux] at hc
    | succ n =>
      simp only [hexDigitsAux, List.mem_append, List.mem_singleton] at hc
      rcases hc with hc | hc
      · exact ih _ hc
      · rw [hc]
        exact isHexLower_hexDigitChar _ (Nat.mod_lt _ (by omega))

theorem hexPad32_length (n : Nat) : (hexPad32 n).length = 32 := by
  unfold hexPad32 String.length
  simp only [List.length_append, List.length_replicate]
  have := hexDigitsAux_length 32 n
  omega

theorem hexPad32_chars (n : Nat) (c : Char) (hc : c ∈ (hexPad32 n).data) :
    isHexLower c := by
  unfold hexPad32 at hc
  simp only [List.mem_append, List.mem_replicate] at hc
  rcases hc with ⟨-, hc⟩ | hc
  · rw [hc]; decide
  · exact hexDigitsAux_mem 32 n c hc

/-- **C4.** Every digest returned by a successful `save_blob` is exactly 32
characters long and each character is a lowercase hexadecimal digit. -/
theorem C4_digest_format (hasher : String → Nat) (t : Nat) (s : FSState)
    (c : String) (hok : (save_blob hasher t s c).ret ≠ "") :
    (save_blob hasher t s c).ret.length = 32
      ∧ ∀ ch ∈ (save_blob hasher t s c).ret.data, isHexLower ch := by
  unfold save_blob at *
  by_cases hw : canOpenWrite s (blobPath (generate_simple_hash hasher t c))
  · simp only [if_pos hw]
    unfold generate_simple_hash
    exact ⟨hexPad32_length _, fun ch h => hexPad32_chars _ ch h⟩
  · simp [if_neg hw] at hok

/-- Witness for C4 on a concrete state, hasher and content. -/
theorem C4_digest_format_witness :
    ((save_blob (fun u => u.length * 31) 7
        ⟨[".minigit", ".minigit/objects"], [], [], []⟩ "A").ret ≠ ""
      ∧ (save_blob (fun u => u.length * 31) 7
          ⟨[".minigit", ".minigit/objects"], [], [], []⟩ "A").ret.length = 32)
    ∧ ∀ ch ∈ (save_blob (fun u => u.length * 31) 7
        ⟨[".minigit", ".minigit/objects"], [], [], []⟩ "A").ret.data,
        isHexLower ch :=
  ⟨⟨by decide,
    (C4_digest_format (fun u => u.length * 31) 7
      ⟨[".minigit", ".minigit/objects"], [], [], []⟩ "A" (by decide)).1⟩,
    (C4_digest_format (fun u => u.length * 31) 7
      ⟨[".minigit", ".minigit/objects"], [], [], []⟩ "A" (by decide)).2⟩

/-! ## Write-failure and read-failure behavior (C8, C9, C2, C10) -/

/-- **C8.** If `save_blob` cannot open the destination object file it reports
an object-write error on `stderr`, returns the empty string — not a digest —
and leaves the filesystem unchanged; whenever a non-empty digest is returned,
the content really is stored at `objects/<digest>`. -/
theorem C8_write_failure (hasher : String → Nat) (t : Nat) (s : FSState)
    (c : String) :
    (¬canOpenWrite s (blobPath (generate_simple_hash hasher t c)) = true →
      (save_blob hasher t s c).ret = ""
        ∧ (save_blob hasher t s c).state = s
        ∧ (save_blob hasher t s c).errs
            = ["Error: Could not save blob to "
                ++ blobPath (generate_simple_hash hasher t c)])
    ∧ ((save_blob hasher t s c).ret ≠ "" →
        lookupF (save_blob hasher t s c).state.files
          (blobPath (save_blob hasher t s c).ret) = some c) := by
  by_cases hw : canOpenWrite s (blobPath (generate_simple_hash hasher t c)) = true
  · refine ⟨fun h => absurd hw h, fun _ => ?_⟩
    simp [save_blob, hw, setFileS, lookupF_setFile_self]
  · refine ⟨fun _ => ⟨?_, ?_, ?_⟩, fun h => ?_⟩
    · simp [save_blob, hw]
    · simp [save_blob, hw]
    · simp [save_blob, hw]
    · exact absurd (by simp [save_blob, hw]) h

/-- Witness for C8: a failing write (missing `objects` directory) and a
succeeding write. -/
theorem C8_write_failure_witness :
    ((save_blob (fun u => u.length) 3 ⟨[".minigit"], [], [], []⟩ "x").ret = ""
      ∧ (save_blob (fun u => u.length) 3 ⟨[".minigit"], [], [], []⟩ "x").state
          = ⟨[".minigit"], [], [], []⟩
      ∧ (save_blob (fun u => u.length) 3 ⟨[".minigit"], [], [], []⟩ "x").errs
          = ["Error: Could not save blob to "
              ++ blobPath (generate_simple_hash (fun u => u.length) 3 "x")])
    ∧ lookupF (save_blob (fun u => u.length) 3
        ⟨[".minigit", ".minigit/objects"], [], [], []⟩ "x").state.files
        (blobPath (save_blob (fun u => u.length) 3
          ⟨[".minigit", ".minigit/objects"], [], [], []⟩ "x").ret) = some "x" :=
  ⟨(C8_write_failure (fun u => u.length) 3 ⟨[".minigit"], [], [], []⟩ "x").1
      (by decide),
    (C8_write_failure (fun u => u.length) 3
      ⟨[".minigit", ".minigit/objects"], [], [], []⟩ "x").2 (by decide)⟩

/-- **C9.** The empty string is an ambiguous result: `read_blob` returns `""`
both for a missing object and for a stored empty object, and `save_blob`'s
failure value is also `""`, which is never a valid 32-character digest. -/
theorem C9_empty_string_ambiguity (s : FSState) (d : String)
    (hasher : String → Nat) (t : Nat) (c : String) :
    (lookupF s.files (blobPath d) = none → (read_blob s d).content = "")
    ∧ (lookupF s.files (blobPath d) = some "" → (read_blob s d).content = "")
    ∧ (¬canOpenWrite s (blobPath (generate_simple_hash hasher t c)) = true →
        (save_blob hasher t s c).ret = ""
          ∧ (save_blob hasher t s c).ret.length ≠ 32) := by
  refine ⟨?_, ?_, ?_⟩
  · intro h; simp [read_blob, h]
  · intro h; simp [read_blob, h, readAll, cppGetlines, reconstruct]
  · intro h
    refine ⟨?_, ?_⟩ <;> simp [save_blob, h]

/-- Witness for C9: a state with one empty object, a missing digest, and a
write that fails for want of the `objects` directory. -/
theorem C9_empty_string_ambiguity_witness :
    ((read_blob ⟨[".minigit", ".minigit/objects"],
        [(".minigit/objects/aaaaaaaaaaaaaaaaaaaaaaaaaaaaaaaa", "")], [], []⟩
        "00000000000000000000000000000000").content = "")
    ∧ ((read_blob ⟨[".minigit", ".minigit/objects"],
        [(".minigit/objects/aaaaaaaaaaaaaaaaaaaaaaaaaaaaaaaa", "")], [], []⟩
        "aaaaaaaaaaaaaaaaaaaaaaaaaaaaaaaa").content = "")
    ∧ (save_blob (fun u => u.length) 3 ⟨[], [], [], []⟩ "x").ret = ""
    ∧ (save_blob (fun u => u.length) 3 ⟨[], [], [], []⟩ "x").ret.length ≠ 32 :=
  ⟨(C9_empty_string_ambiguity
      ⟨[".minigit", ".minigit/objects"],
        [(".minigit/objects/aaaaaaaaaaaaaaaaaaaaaaaaaaaaaaaa", "")], [], []⟩
      "00000000000000000000000000000000" (fun u => u.length) 3 "x").1
      (by decide),
    (C9_empty_string_ambiguity
      ⟨[".minigit", ".minigit/objects"],
        [(".minigit/objects/aaaaaaaaaaaaaaaaaaaaaaaaaaaaaaaa", "")], [], []⟩
      "aaaaaaaaaaaaaaaaaaaaaaaaaaaaaaaa" (fun u => u.length) 3 "x").2.1
      (by decide),
    (C9_empty_string_ambiguity ⟨[], [], [], []⟩ "d" (fun u => u.length) 3
      "x").2.2 (by decide)⟩

/-- **C2 counterexample.** `read_blob` on a digest with no object file
returns the empty string — the very value a successful read of an existing
empty object returns — so the object-not-found signal is not distinct from
an empty-content success at the return value. -/
theorem C2_counterexample :
    lookupF (⟨[".minigit", ".minigit/objects"],
        [(".minigit/objects/aaaaaaaaaaaaaaaaaaaaaaaaaaaaaaaa", "")], [], []⟩
        : FSState).files
      (blobPath "00000000000000000000000000000000") = none
    ∧ (read_blob ⟨[".minigit", ".minigit/objects"],
        [(".minigit/objects/aaaaaaaaaaaaaaaaaaaaaaaaaaaaaaaa", "")], [], []⟩
        "00000000000000000000000000000000").content = ""
    ∧ (read_blob ⟨[".minigit", ".minigit/objects"],
        [(".minigit/objects/aaaaaaaaaaaaaaaaaaaaaaaaaaaaaaaa", "")], [], []⟩
        "aaaaaaaaaaaaaaaaaaaaaaaaaaaaaaaa")
        = ⟨"", []⟩
    ∧ (read_blob ⟨[".minigit", ".minigit/objects"],
        [(".minigit/objects/aaaaaaaaaaaaaaaaaaaaaaaaaaaaaaaa", "")], [], []⟩
        "00000000000000000000000000000000").content
      = (read_blob ⟨[".minigit", ".minigit/objects"],
        [(".minigit/objects/aaaaaaaaaaaaaaaaaaaaaaaaaaaaaaaa", "")], [], []⟩
        "aaaaaaaaaaaaaaaaaaaaaaaaaaaaaaaa").content := by
  refine ⟨by decide, by decide, ?_, by decide⟩
  decide

/-- **C2 amended.** `read_blob` on a digest with no object file does not
crash: it reports a read error on `stderr` and returns the empty string as
its value — a value not distinct from a successful read of an empty
object. -/
theorem C2_missing_read (s : FSState) (d : String)
    (h : lookupF s.files (blobPath d) = none) :
    read_blob s d
      = ⟨"", ["Error: Could not read blob from " ++ blobPath d]⟩ := by
  simp [read_blob, h]

/-- Witness for the amended C2 at the spec's digest of 32 zeros. -/
theorem C2_missing_read_witness :
    read_blob ⟨[".minigit", ".minigit/objects"], [], [], []⟩
        "00000000000000000000000000000000"
      = ⟨"", ["Error: Could not read blob from "
          ++ blobPath "00000000000000000000000000000000"]⟩ :=
  C2_missing_read ⟨[".minigit", ".minigit/objects"], [], [], []⟩
    "00000000000000000000000000000000" (by decide)

/-- **C10.** The digest is a deterministic function of the content and the
wall-clock second: two `save_blob` calls with identical content observing the
same second return identical digests, and the second write targets (and
overwrites) the same `objects/<digest>` file. -/
theorem C10_same_second_overwrite (hasher : String → Nat) (t : Nat)
    (s : FSState) (c : String) :
    (save_blob hasher t s c).ret
        = (save_blob hasher t (save_blob hasher t s c).state c).ret
    ∧ ((save_blob hasher t s c).ret ≠ "" →
        (save_blob hasher t (save_blob hasher t s c).state c).state.files
            = setFile (save_blob hasher t s c).state.files
                (blobPath (save_blob hasher t s c).ret) c
          ∧ lookupF
              (save_blob hasher t (save_blob hasher t s c).state c).state.files
              (blobPath (save_blob hasher t s c).ret) = some c) := by
  by_cases hw : canOpenWrite s (blobPath (generate_simple_hash hasher t c)) = true
  · have hw2 : canOpenWrite
        { s with files := (setFile s.files (blobPath (generate_simple_hash hasher t c)) c) }
        (blobPath (generate_simple_hash hasher t c)) = true := hw
    refine ⟨?_, fun _ => ⟨?_, ?_⟩⟩
    · simp [save_blob, hw, hw2, setFileS]
    · simp [save_blob, hw, hw2, setFileS]
    · simp [save_blob, hw, hw2, setFileS, lookupF_setFile_self]
  · refine ⟨?_, fun h => ?_⟩
    · simp [save_blob, hw]
    · exact absurd (by simp [save_blob, hw]) h

/-- Witness for C10: writing `"x"` twice in the same second on a ready
repository. -/
theorem C10_same_second_overwrite_witness :
    ((save_blob (fun u => u.length) 9
        ⟨[".minigit", ".minigit/objects"], [], [], []⟩ "x").ret ≠ ""
      ∧ (save_blob (fun u => u.length) 9
          ⟨[".minigit", ".minigit/objects"], [], [], []⟩ "x").ret
        = (save_blob (fun u => u.length) 9
            (save_blob (fun u => u.length) 9
              ⟨[".minigit", ".minigit/objects"], [], [], []⟩ "x").state
            "x").ret)
    ∧ lookupF (save_blob (fun u => u.length) 9
        (save_blob (fun u => u.length) 9
          ⟨[".minigit", ".minigit/objects"], [], [], []⟩ "x").state
        "x").state.files
        (blobPath (save_blob (fun u => u.length) 9
          ⟨[".minigit", ".minigit/objects"], [], [], []⟩ "x").ret)
      = some "x" :=
  ⟨⟨by decide,
    (C10_same_second_overwrite (fun u => u.length) 9
      ⟨[".minigit", ".minigit/objects"], [], [], []⟩ "x").1⟩,
    ((C10_same_second_overwrite (fun u => u.length) 9
      ⟨[".minigit", ".minigit/objects"], [], [], []⟩ "x").2 (by decide)).2⟩

/-! ## State-preservation lemmas for `init` -/

theorem canOpenWrite_setFileS (s : FSState) (q v p : String) :
    canOpenWrite (setFileS s q v) p = canOpenWrite s p := rfl

theorem existsPathB_setFileS (s : FSState) (p q v : String)
    (h : existsPathB s p = true) : existsPathB (setFileS s q v) p = true := by
  unfold existsPathB setFileS at *
  by_cases hpq : p = q
  · subst hpq
    simp [lookupF_setFile_self]
  · rw [lookupF_setFile_ne _ _ _ _ hpq]
    exact h

theorem existsPathB_addDir (s : FSState) (p q : String)
    (h : existsPathB s p = true) : existsPathB (addDir s q) p = true := by
  unfold existsPathB addDir at *
  rcases Bool.or_eq_true_iff.mp h with h1 | h1
  · simp only [List.contains_cons]
    rw [h1]
    simp
  · rw [h1]
    simp

theorem existsPathB_addDir_self (s : FSState) (q : String) :
    existsPathB (addDir s q) q = true := by
  simp [existsPathB, addDir, List.contains_cons]

/-! ## Stage lemmas for `init` -/

theorem stepMain_spec (s : FSState) (errs : List String) (b : Bool) :
    (stepMain s errs b).earlyReturn = false
    ∧ (stepMain s errs b).headOk = b
    ∧ ((stepMain s errs b).mainOk = true →
        lookupF (stepMain s errs b).state.files mainPath = some "")
    ∧ (∀ p, p ≠ mainPath →
        lookupF (stepMain s errs b).state.files p = lookupF s.files p)
    ∧ (∀ p, existsPathB s p = true →
        existsPathB (stepMain s errs b).state p = true) := by
  unfold stepMain
  by_cases hw : canOpenWrite s mainPath = true
  · rw [if_pos hw]
    exact ⟨rfl, rfl, fun _ => lookupF_setFile_self _ _ _,
      fun p hp => lookupF_setFile_ne _ _ _ _ hp,
      fun p hp => existsPathB_setFileS s p _ _ hp⟩
  · rw [if_neg hw]
    exact ⟨rfl, rfl, fun h => absurd h (by simp), fun p _ => rfl,
      fun p hp => hp⟩

theorem stepHead_spec (s : FSState) :
    (stepHead s).earlyReturn = false
    ∧ ((stepHead s).headOk = true →
        lookupF (stepHead s).state.files headPath = some headContent)
    ∧ ((stepHead s).mainOk = true →
        lookupF (stepHead s).state.files mainPath = some "")
    ∧ (∀ p, existsPathB s p = true →
        existsPathB (stepHead s).state p = true) := by
  unfold stepHead
  by_cases hw : canOpenWrite s headPath = true
  · rw [if_pos hw]
    obtain ⟨h1, h2, h3, h4, h5⟩ :=
      stepMain_spec (setFileS s headPath headContent) [] true
    refine ⟨h1, fun _ => ?_, h3, fun p hp => h5 p (existsPathB_setFileS s p _ _ hp)⟩
    rw [h4 headPath (by decide)]
    exact lookupF_setFile_self _ _ _
  · rw [if_neg hw]
    obtain ⟨h1, h2, h3, h4, h5⟩ := stepMain_spec s [errHead] false
    refine ⟨h1, fun hh => ?_, h3, h5⟩
    rw [h2] at hh
    exact absurd hh (by simp)

theorem stepHeads_spec (s : FSState)
    (hne : (stepHeads s).earlyReturn = false) :
    existsPathB (stepHeads s).state headsPath = true
    ∧ ((stepHeads s).headOk = true →
        lookupF (stepHeads s).state.files headPath = some headContent)
    ∧ ((stepHeads s).mainOk = true →
        lookupF (stepHeads s).state.files mainPath = some "")
    ∧ (∀ p, existsPathB s p = true →
        existsPathB (stepHeads s).state p = true) := by
  unfold stepHeads at *
  by_cases he : existsPathB s headsPath = true
  · rw [if_pos he] at *
    obtain ⟨h1, h2, h3, h4⟩ := stepHead_spec s
    exact ⟨h4 headsPath he, h2, h3, h4⟩
  · rw [if_neg he] at *
    by_cases hf : s.createFail.contains headsPath = true
    · rw [if_pos hf] at hne
      exact absurd hne (by simp [mkAbort])
    · rw [if_neg hf] at *
      obtain ⟨h1, h2, h3, h4⟩ := stepHead_spec (addDir s headsPath)
      exact ⟨h4 headsPath (existsPathB_addDir_self s headsPath), h2, h3,
        fun p hp => h4 p (existsPathB_addDir s p headsPath hp)⟩

theorem stepRefs_spec (s : FSState)
    (hne : (stepRefs s).earlyReturn = false) :
    existsPathB (stepRefs s).state refsPath = true
    ∧ existsPathB (stepRefs s).state headsPath = true
    ∧ ((stepRefs s).headOk = true →
        lookupF (stepRefs s).state.files headPath = some headContent)
    ∧ ((stepRefs s).mainOk = true →
        lookupF (stepRefs s).state.files mainPath = some "")
    ∧ (∀ p, existsPathB s p = true →
        existsPathB (stepRefs s).state p = true) := by
  unfold stepRefs at *
  by_cases he : existsPathB s refsPath = true
  · rw [if_pos he] at *
    obtain ⟨h1, h2, h3, h4⟩ := stepHeads_spec s hne
    exact ⟨h4 refsPath he, h1, h2, h3, h4⟩
  · rw [if_neg he] at *
    by_cases hf : s.createFail.contains refsPath = true
    · rw [if_pos hf] at hne
      exact absurd hne (by simp [mkAbort])
    · rw [if_neg hf] at *
      obtain ⟨h1, h2, h3, h4⟩ := stepHeads_spec (addDir s refsPath) hne
      exact ⟨h4 refsPath (existsPathB_addDir_self s refsPath), h1, h2, h3,
        fun p hp => h4 p (existsPathB_addDir s p refsPath hp)⟩

theorem stepObjects_spec (s : FSState)
    (hne : (stepObjects s).earlyReturn = false) :
    existsPathB (stepObjects s).state objectsPath = true
    ∧ existsPathB (stepObjects s).state refsPath = true
    ∧ existsPathB (stepObjects s).state headsPath = true
    ∧ ((stepObjects s).headOk = true →
        lookupF (stepObjects s).state.files headPath = some headContent)
    ∧ ((stepObjects s).mainOk = true →
        lookupF (stepObjects s).state.files mainPath = some "")
    ∧ (∀ p, existsPathB s p = true →
        existsPathB (stepObjects s).state p = true) := by
  unfold stepObjects at *
  by_cases he : existsPathB s objectsPath = true
  · rw [if_pos he] at *
    obtain ⟨h1, h2, h3, h4, h5⟩ := stepRefs_spec s hne
    exact ⟨h5 objectsPath he, h1, h2, h3, h4, h5⟩
  · rw [if_neg he] at *
    by_cases hf : s.createFail.contains objectsPath = true
    · rw [if_pos hf] at hne
      exact absurd hne (by simp [mkAbort])
    · rw [if_neg hf] at *
      obtain ⟨h1, h2, h3, h4, h5⟩ := stepRefs_spec (addDir s objectsPath) hne
      exact ⟨h5 objectsPath (existsPathB_addDir_self s objectsPath),
        h1, h2, h3, h4,
        fun p hp => h5 p (existsPathB_addDir s p objectsPath hp)⟩

theorem init_spec (s : FSState) (hne : (init s).earlyReturn = false) :
    existsPathB (init s).state objectsPath = true
    ∧ existsPathB (init s).state refsPath = true
    ∧ existsPathB (init s).state headsPath = true
    ∧ ((init s).headOk = true →
        lookupF (init s).state.files headPath = some headContent)
    ∧ ((init s).mainOk = true →
        lookupF (init s).state.files mainPath = some "") := by
  unfold init at *
  by_cases hr : (existsPathB s rootDir && isDirB s rootDir) = true
  · rw [if_pos hr] at *
    obtain ⟨h1, h2, h3, h4, h5, _⟩ := stepObjects_spec s hne
    exact ⟨h1, h2, h3, h4, h5⟩
  · rw [if_neg hr] at *
    by_cases hc : (existsPathB s rootDir || s.createFail.contains rootDir) = true
    · rw [if_pos hc] at hne
      exact absurd hne (by simp [mkAbort])
    · rw [if_neg hc] at *
      obtain ⟨h1, h2, h3, h4, h5, _⟩ := stepObjects_spec (addDir s rootDir) hne
      exact ⟨h1, h2, h3, h4, h5⟩

theorem existsPathB_of_lookup (s : FSState) (p v : String)
    (h : lookupF s.files p = some v) : existsPathB s p = true := by
  unfold existsPathB
  rw [h]
  simp

theorem existsPathB_of_isDir (s : FSState) (p : String)
    (h : isDirB s p = true) : existsPathB s p = true := by
  unfold existsPathB
  unfold isDirB at h
  rw [h]
  simp

/-! ## The `init` claims (C3, C5, C6, C7) -/

/-- **C3 counterexample.** Re-running `init` on a repository whose
`refs/heads/main` holds the non-empty content `"abc123\n"` truncates it: the
branch file holds `""` afterwards, because the code opens it with a plain
(truncating) `std::ofstream` without any existence check. -/
theorem C3_counterexample :
    lookupF (⟨[".minigit", ".minigit/objects", ".minigit/refs",
        ".minigit/refs/heads"],
        [(".minigit/refs/heads/main", "abc123\n")], [], []⟩ : FSState).files
      mainPath = some "abc123\n"
    ∧ lookupF (init ⟨[".minigit", ".minigit/objects", ".minigit/refs",
        ".minigit/refs/heads"],
        [(".minigit/refs/heads/main", "abc123\n")], [], []⟩).state.files
      mainPath = some ""
    ∧ ¬lookupF (init ⟨[".minigit", ".minigit/objects", ".minigit/refs",
        ".minigit/refs/heads"],
        [(".minigit/refs/heads/main", "abc123\n")], [], []⟩).state.files
      mainPath = some "abc123\n" := by
  exact ⟨by decide, by decide, by decide⟩

/-- **C3 amended.** Whenever `init` does not return early and the branch
file opens successfully, it rewrites `refs/heads/main` to empty content —
truncating (not preserving) whatever the file held before. -/
theorem C3_reinit_truncates_main (s : FSState)
    (h1 : (init s).earlyReturn = false) (h2 : (init s).mainOk = true) :
    lookupF (init s).state.files mainPath = some "" :=
  (init_spec s h1).2.2.2.2 h2

/-- Witness for the amended C3: the state of the counterexample. -/
theorem C3_reinit_truncates_main_witness :
    ((init ⟨[".minigit", ".minigit/objects", ".minigit/refs",
        ".minigit/refs/heads"],
        [(".minigit/refs/heads/main", "abc123\n")], [], []⟩).earlyReturn = false
      ∧ (init ⟨[".minigit", ".minigit/objects", ".minigit/refs",
        ".minigit/refs/heads"],
        [(".minigit/refs/heads/main", "abc123\n")], [], []⟩).mainOk = true)
    ∧ lookupF (init ⟨[".minigit", ".minigit/objects", ".minigit/refs",
        ".minigit/refs/heads"],
        [(".minigit/refs/heads/main", "abc123\n")], [], []⟩).state.files
      mainPath = some "" :=
  ⟨⟨by decide, by decide⟩,
    C3_reinit_truncates_main
      ⟨[".minigit", ".minigit/objects", ".minigit/refs", ".minigit/refs/heads"],
        [(".minigit/refs/heads/main", "abc123\n")], [], []⟩
      (by decide) (by decide)⟩

/-- **C5 counterexample.** `init` does not rewrite `HEAD` regardless of prior
repository state: when `.minigit` exists as a regular file, the root
`create_directory` fails and `init` returns before the `HEAD` step, so no
`HEAD` file exists afterwards. -/
theorem C5_counterexample :
    (init ⟨[], [(".minigit", "junk")], [], []⟩).state
        = ⟨[], [(".minigit", "junk")], [], []⟩
    ∧ (init ⟨[], [(".minigit", "junk")], [], []⟩).earlyReturn = true
    ∧ lookupF (init ⟨[], [(".minigit", "junk")], [], []⟩).state.files
        headPath = none := by
  exact ⟨by decide, by decide, by decide⟩

/-- **C5 amended.** On every call to `init` that does not return early on a
directory-creation failure and in which the `HEAD` file opens for writing,
`HEAD` is rewritten to exactly the single line `"ref: refs/heads/main\n"`,
overwriting any prior content. -/
theorem C5_head_rewritten (s : FSState)
    (h1 : (init s).earlyReturn = false) (h2 : (init s).headOk = true) :
    lookupF (init s).state.files headPath = some headContent :=
  (init_spec s h1).2.2.2.1 h2

/-- Witness for the amended C5: a repository whose `HEAD` previously held
different content. -/
theorem C5_head_rewritten_witness :
    ((init ⟨[".minigit", ".minigit/objects", ".minigit/refs",
        ".minigit/refs/heads"],
        [(".minigit/HEAD", "ref: refs/heads/dev\n")], [], []⟩).earlyReturn
        = false
      ∧ (init ⟨[".minigit", ".minigit/objects", ".minigit/refs",
        ".minigit/refs/heads"],
        [(".minigit/HEAD", "ref: refs/heads/dev\n")], [], []⟩).headOk = true)
    ∧ lookupF (init ⟨[".minigit", ".minigit/objects", ".minigit/refs",
        ".minigit/refs/heads"],
        [(".minigit/HEAD", "ref: refs/heads/dev\n")], [], []⟩).state.files
      headPath = some headContent :=
  ⟨⟨by decide, by decide⟩,
    C5_head_rewritten
      ⟨[".minigit", ".minigit/objects", ".minigit/refs", ".minigit/refs/heads"],
        [(".minigit/HEAD", "ref: refs/heads/dev\n")], [], []⟩
      (by decide) (by decide)⟩

/-- **C6.** After a successful run of `init` — no early return and both file
writes succeeded — the `objects/`, `refs/` and `refs/heads/` directories and
the `HEAD` and `refs/heads/main` files all exist. -/
theorem C6_layout_complete (s : FSState)
    (h1 : (init s).earlyReturn = false) (h2 : (init s).headOk = true)
    (h3 : (init s).mainOk = true) :
    existsPathB (init s).state objectsPath = true
    ∧ existsPathB (init s).state refsPath = true
    ∧ existsPathB (init s).state headsPath = true
    ∧ existsPathB (init s).state headPath = true
    ∧ existsPathB (init s).state mainPath = true := by
  obtain ⟨e1, e2, e3, e4, e5⟩ := init_spec s h1
  exact ⟨e1, e2, e3, existsPathB_of_lookup _ _ _ (e4 h2),
    existsPathB_of_lookup _ _ _ (e5 h3)⟩

/-- Witness for C6: `init` on an empty filesystem. -/
theorem C6_layout_complete_witness :
    ((init ⟨[], [], [], []⟩).earlyReturn = false
      ∧ (init ⟨[], [], [], []⟩).headOk = true
      ∧ (init ⟨[], [], [], []⟩).mainOk = true)
    ∧ (existsPathB (init ⟨[], [], [], []⟩).state objectsPath = true
      ∧ existsPathB (init ⟨[], [], [], []⟩).state refsPath = true
      ∧ existsPathB (init ⟨[], [], [], []⟩).state headsPath = true
      ∧ existsPathB (init ⟨[], [], [], []⟩).state headPath = true
      ∧ existsPathB (init ⟨[], [], [], []⟩).state mainPath = true) :=
  ⟨⟨by decide, by decide, by decide⟩,
    C6_layout_complete ⟨[], [], [], []⟩ (by decide) (by decide) (by decide)⟩

/-- **C7 counterexample.** A directory-creation failure is fatal, not
non-fatal: when creating `objects/` fails, `init` returns at once with only
that path's error — the filesystem is unchanged, so `refs/`, `refs/heads/`,
`HEAD` and the branch file were never attempted. -/
theorem C7_counterexample :
    init ⟨[".minigit"], [], [".minigit/objects"], []⟩
        = mkAbort ⟨[".minigit"], [], [".minigit/objects"], []⟩
            (errDir objectsPath)
    ∧ existsPathB (init ⟨[".minigit"], [], [".minigit/objects"], []⟩).state
        refsPath = false
    ∧ lookupF (init ⟨[".minigit"], [], [".minigit/objects"], []⟩).state.files
        headPath = none := by
  exact ⟨by decide, by decide, by decide⟩

/-- **C7 amended.** A directory-creation failure for `objects/`, `refs/` or
`refs/heads` is reported with that path's message and is fatal: `init`
returns immediately with the filesystem unchanged, attempting none of the
remaining sub-paths nor the `HEAD` and branch files. -/
theorem C7_dir_failure_fatal (s : FSState) (hd : isDirB s rootDir = true) :
    (¬existsPathB s objectsPath = true →
      s.createFail.contains objectsPath = true →
      init s = mkAbort s (errDir objectsPath))
    ∧ (existsPathB s objectsPath = true →
        ¬existsPathB s refsPath = true →
        s.createFail.contains refsPath = true →
        init s = mkAbort s (errDir refsPath))
    ∧ (existsPathB s objectsPath = true →
        existsPathB s refsPath = true →
        ¬existsPathB s headsPath = true →
        s.createFail.contains headsPath = true →
        init s = mkAbort s (errDir headsPath)) := by
  have hroot : (existsPathB s rootDir && isDirB s rootDir) = true :=
    Bool.and_eq_true_iff.mpr ⟨existsPathB_of_isDir s rootDir hd, hd⟩
  have hinit : init s = stepObjects s := by
    unfold init
    rw [if_pos hroot]
  refine ⟨fun h1 h2 => ?_, fun h1 h2 h3 => ?_, fun h1 h2 h3 h4 => ?_⟩
  · rw [hinit]
    unfold stepObjects
    rw [if_neg h1, if_pos h2]
  · rw [hinit]
    unfold stepObjects stepRefs
    rw [if_pos h1, if_neg h2, if_pos h3]
  · rw [hinit]
    unfold stepObjects stepRefs stepHeads
    rw [if_pos h1, if_pos h2, if_neg h3, if_pos h4]

/-- Witness for the amended C7: `objects/` creation fails on an otherwise
healthy root. -/
theorem C7_dir_failure_fatal_witness :
    (isDirB ⟨[".minigit"], [], [".minigit/objects"], []⟩ rootDir = true
      ∧ ¬existsPathB ⟨[".minigit"], [], [".minigit/objects"], []⟩
          objectsPath = true
      ∧ (⟨[".minigit"], [], [".minigit/objects"], []⟩
          : FSState).createFail.contains objectsPath = true)
    ∧ init ⟨[".minigit"], [], [".minigit/objects"], []⟩
        = mkAbort ⟨[".minigit"], [], [".minigit/objects"], []⟩
            (errDir objectsPath) :=
  ⟨⟨by decide, by decide, by decide⟩,
    (C7_dir_failure_fatal ⟨[".minigit"], [], [".minigit/objects"], []⟩
      (by decide)).1 (by decide) (by decide)⟩

end MiniGit
